import Mathlib

/-!
Shallow embedding of collectd's src/mysql.c (the MySQL statistics plugin):
the status-row classifier of mysql_read, the sub-readers for primary,
replica, InnoDB and wsrep statistics, the replica-health notification
state machine, host-name resolution (set_host) and the connection
manager (getconnection).  Machine integers are modelled as Nat/Int with
explicit reduction modulo 2^64 / 2^63 where the C converts between
unsigned long long and derive_t (int64).
-/

namespace Mysql

/-- The collectd data-source types used by the tables in mysql.c
(DS_TYPE_GAUGE, DS_TYPE_DERIVE, DS_TYPE_COUNTER). -/
inductive DSType
  | GAUGE
  | DERIVE
  | COUNTER
deriving DecidableEq, Repr

/-- The numeric kind of an emitted metric. -/
inductive MetricKind
  | gauge
  | derive
deriving DecidableEq, Repr

/-- The value carried by one emission.  `g` is a gauge obtained from an
integer conversion, `gNaN` the NAN initial value of an uninitialised
gauge accumulator, `gRaw` a gauge obtained by atof from a raw string
(floating point is not interpreted, the raw text is kept), `d` a derive
(int64) value, and `d2` the rx/tx pair submitted by traffic_submit. -/
inductive EValue
  | g (v : Nat)
  | gNaN
  | gRaw (s : String)
  | d (v : Int)
  | d2 (rx tx : Int)
deriving DecidableEq, Repr

/-- One call to plugin_dispatch_values: value-list type, optional
type_instance, and the value(s). -/
structure Emission where
  vtype : String
  tinst : Option String
  value : EValue
deriving DecidableEq, Repr

/-- The numeric kind of an emission, determined by its value. -/
def Emission.kind (e : Emission) : MetricKind :=
  match e.value with
  | .d _ => .derive
  | .d2 _ _ => .derive
  | _ => .gauge

/-- Models gauge_submit: one gauge emission. -/
def gauge_submit (vtype : String) (tinst : Option String) (v : EValue) : Emission :=
  ⟨vtype, tinst, v⟩

/-- Models derive_submit: one derive emission. -/
def derive_submit (vtype : String) (tinst : Option String) (v : Int) : Emission :=
  ⟨vtype, tinst, .d v⟩

/-- Models traffic_submit: one mysql_octets emission carrying rx and tx. -/
def traffic_submit (rx tx : Int) : Emission :=
  ⟨"mysql_octets", none, .d2 rx tx⟩

/-- C isspace in the default locale: space or one of \t \n \v \f \r
(character codes 9..13 and 32). -/
def isSpace (c : Char) : Bool :=
  c.toNat = 32 || (9 ≤ c.toNat && c.toNat ≤ 13)

/-- Accumulate leading decimal digits, stopping at the first
non-digit — the digit-consuming loop of C atoll/strtoll. -/
def digitsAcc : Int → List Char → Int
  | acc, [] => acc
  | acc, c :: cs =>
    if c.isDigit then digitsAcc (10 * acc + (c.toNat - 48 : Nat)) cs else acc

/-- C atoll on a character list: skip whitespace, optional sign, then
leading decimal digits; no digits yields 0. -/
def atollList (cs : List Char) : Int :=
  match cs.dropWhile isSpace with
  | [] => 0
  | c :: cs' =>
    if c = '-' then -(digitsAcc 0 cs')
    else if c = '+' then digitsAcc 0 cs'
    else digitsAcc 0 (c :: cs')

/-- C atoll on a string (overflow saturation is not modelled; status
values fit in int64). -/
def c_atoll (s : String) : Int :=
  atollList s.data

/-- Whether atoll finds at least one digit: after whitespace and an
optional sign the next character is a decimal digit.  When this is
false the parse "fails" and atoll returns 0. -/
def atollParses (s : String) : Bool :=
  match s.data.dropWhile isSpace with
  | [] => false
  | c :: cs' =>
    if c = '-' then (cs'.headD ' ').isDigit
    else if c = '+' then (cs'.headD ' ').isDigit
    else c.isDigit

/-- `unsigned long long val = atoll(row[1])`: the atoll result converted
to unsigned long long (reduction modulo 2^64). -/
def rowVal (s : String) : Nat :=
  ((c_atoll s) % (2 ^ 64 : Int)).toNat

/-- Conversion of an unsigned long long to derive_t (int64), as in
`derive_submit(..., val, ...)`. -/
def toDerive (v : Nat) : Int :=
  if v < 2 ^ 63 then (v : Int) else (v : Int) - 2 ^ 64

/-- atoll applied to a possibly-NULL column (C behaviour on NULL is
undefined; modelled as 0, no claim depends on it). -/
def optVal (o : Option String) : Nat :=
  match o with
  | none => 0
  | some s => rowVal s

/-- Boolean prefix test on character lists (first argument is the
candidate prefix). -/
def strPre : List Char → List Char → Bool
  | [], _ => true
  | _ :: _, [] => false
  | a :: as, b :: bs => if a = b then strPre as bs else false

/-- Models `strncmp(s, p, strlen(p)) == 0`: `p` is a prefix of `s`. -/
def strncmp0 (s p : String) : Bool :=
  strPre p.data s.data

/-- Models pointer arithmetic `s + n` on an ASCII key: drop the first
`n` characters. -/
def dropLen (s : String) (n : Nat) : String :=
  ⟨s.data.drop n⟩

/-- Models `strcasecmp(a, b) == 0`: equality up to ASCII case. -/
def strcaseeq (a b : String) : Bool :=
  a.data.map Char.toLower = b.data.map Char.toLower

/-- The local accumulators of mysql_read.  The gauge accumulators are
initialised to NAN in the C (modelled as `none`); the derive and
traffic accumulators start at 0. -/
structure ReadAcc where
  qcache_hits : Int := 0
  qcache_inserts : Int := 0
  qcache_not_cached : Int := 0
  qcache_lowmem_prunes : Int := 0
  qcache_queries_in_cache : Option Nat := none
  threads_running : Option Nat := none
  threads_connected : Option Nat := none
  threads_cached : Option Nat := none
  threads_created : Int := 0
  traffic_incoming : Nat := 0
  traffic_outgoing : Nat := 0
deriving DecidableEq, Repr

/-- First Innodb_* if/else-if chain of mysql_read (the buffer-pool
family). -/
def innodbChain1 (key : String) (val : Nat) : List Emission :=
  if key = "Innodb_buffer_pool_pages_data" then
    [gauge_submit "mysql_bpool_pages" (some "data") (.g val)]
  else if key = "Innodb_buffer_pool_pages_dirty" then
    [gauge_submit "mysql_bpool_pages" (some "dirty") (.g val)]
  else if key = "Innodb_buffer_pool_pages_flushed" then
    [derive_submit "mysql_bpool_counters" (some "pages_flushed") (toDerive val)]
  else if key = "Innodb_buffer_pool_pages_free" then
    [gauge_submit "mysql_bpool_pages" (some "free") (.g val)]
  else if key = "Innodb_buffer_pool_pages_misc" then
    [gauge_submit "mysql_bpool_pages" (some "misc") (.g val)]
  else if key = "Innodb_buffer_pool_pages_total" then
    [gauge_submit "mysql_bpool_pages" (some "total") (.g val)]
  else if key = "Innodb_buffer_pool_read_ahead_rnd" then
    [derive_submit "mysql_bpool_counters" (some "read_ahead_rnd") (toDerive val)]
  else if key = "Innodb_buffer_pool_read_ahead" then
    [derive_submit "mysql_bpool_counters" (some "read_ahead") (toDerive val)]
  else if key = "Innodb_buffer_pool_read_ahead_evicted" then
    [derive_submit "mysql_bpool_counters" (some "read_ahead_evicted") (toDerive val)]
  else if key = "Innodb_buffer_pool_read_requests" then
    [derive_submit "mysql_bpool_counters" (some "read_requests") (toDerive val)]
  else if key = "Innodb_buffer_pool_reads" then
    [derive_submit "mysql_bpool_counters" (some "reads") (toDerive val)]
  else if key = "Innodb_buffer_pool_wait_free" then
    [derive_submit "mysql_bpool_counters" (some "wait_free") (toDerive val)]
  else if key = "Innodb_buffer_pool_write_requests" then
    [derive_submit "mysql_bpool_counters" (some "write_requests") (toDerive val)]
  else if key = "Innodb_buffer_pool_bytes_data" then
    [gauge_submit "mysql_bpool_bytes" (some "data") (.g val)]
  else if key = "Innodb_buffer_pool_bytes_dirty" then
    [gauge_submit "mysql_bpool_bytes" (some "dirty") (.g val)]
  else []

/-- Second, independent Innodb_* if/else-if chain of mysql_read (data,
double write, log, pages, row lock, rows families). -/
def innodbChain2 (key : String) (val : Nat) : List Emission :=
  if key = "Innodb_data_fsyncs" then
    [derive_submit "mysql_innodb_data" (some "fsyncs") (toDerive val)]
  else if key = "Innodb_data_read" then
    [derive_submit "mysql_innodb_data" (some "read") (toDerive val)]
  else if key = "Innodb_data_reads" then
    [derive_submit "mysql_innodb_data" (some "reads") (toDerive val)]
  else if key = "Innodb_data_writes" then
    [derive_submit "mysql_innodb_data" (some "writes") (toDerive val)]
  else if key = "Innodb_data_written" then
    [derive_submit "mysql_innodb_data" (some "written") (toDerive val)]
  else if key = "Innodb_dblwr_writes" then
    [derive_submit "mysql_innodb_dblwr" (some "writes") (toDerive val)]
  else if key = "Innodb_dblwr_pages_written" then
    [derive_submit "mysql_innodb_dblwr" (some "written") (toDerive val)]
  else if key = "Innodb_dblwr_page_size" then
    [gauge_submit "mysql_innodb_dblwr" (some "page_size") (.g val)]
  else if key = "Innodb_log_waits" then
    [derive_submit "mysql_innodb_log" (some "waits") (toDerive val)]
  else if key = "Innodb_log_write_requests" then
    [derive_submit "mysql_innodb_log" (some "write_requests") (toDerive val)]
  else if key = "Innodb_log_writes" then
    [derive_submit "mysql_innodb_log" (some "writes") (toDerive val)]
  else if key = "Innodb_os_log_fsyncs" then
    [derive_submit "mysql_innodb_log" (some "fsyncs") (toDerive val)]
  else if key = "Innodb_os_log_written" then
    [derive_submit "mysql_innodb_log" (some "written") (toDerive val)]
  else if key = "Innodb_pages_created" then
    [derive_submit "mysql_innodb_pages" (some "created") (toDerive val)]
  else if key = "Innodb_pages_read" then
    [derive_submit "mysql_innodb_pages" (some "read") (toDerive val)]
  else if key = "Innodb_pages_written" then
    [derive_submit "mysql_innodb_pages" (some "written") (toDerive val)]
  else if key = "Innodb_row_lock_time" then
    [derive_submit "mysql_innodb_row_lock" (some "time") (toDerive val)]
  else if key = "Innodb_row_lock_waits" then
    [derive_submit "mysql_innodb_row_lock" (some "waits") (toDerive val)]
  else if key = "Innodb_rows_deleted" then
    [derive_submit "mysql_innodb_rows" (some "deleted") (toDerive val)]
  else if key = "Innodb_rows_inserted" then
    [derive_submit "mysql_innodb_rows" (some "inserted") (toDerive val)]
  else if key = "Innodb_rows_read" then
    [derive_submit "mysql_innodb_rows" (some "read") (toDerive val)]
  else if key = "Innodb_rows_updated" then
    [derive_submit "mysql_innodb_rows" (some "updated") (toDerive val)]
  else []

/-- The body of mysql_read's per-row while loop, as a function of the
key and the already-converted value `val` (the C computes
`val = atoll(row[1])` once and then branches on the key). -/
def processRowV (innodb_stats : Bool) (acc : ReadAcc) (key : String) (val : Nat) :
    ReadAcc × List Emission :=
  if strncmp0 key "Com_" then
    if val = 0 then (acc, [])
    else if strncmp0 key "Com_stmt_" then (acc, [])
    else (acc, [derive_submit "mysql_commands" (some (dropLen key 4)) (toDerive val)])
  else if strncmp0 key "Handler_" then
    if val = 0 then (acc, [])
    else (acc, [derive_submit "mysql_handler" (some (dropLen key 8)) (toDerive val)])
  else if strncmp0 key "Qcache_" then
    if key = "Qcache_hits" then ({ acc with qcache_hits := toDerive val }, [])
    else if key = "Qcache_inserts" then ({ acc with qcache_inserts := toDerive val }, [])
    else if key = "Qcache_not_cached" then ({ acc with qcache_not_cached := toDerive val }, [])
    else if key = "Qcache_lowmem_prunes" then
      ({ acc with qcache_lowmem_prunes := toDerive val }, [])
    else if key = "Qcache_queries_in_cache" then
      ({ acc with qcache_queries_in_cache := some val }, [])
    else (acc, [])
  else if strncmp0 key "Bytes_" then
    if key = "Bytes_received" then
      ({ acc with traffic_incoming := (acc.traffic_incoming + val) % 2 ^ 64 }, [])
    else if key = "Bytes_sent" then
      ({ acc with traffic_outgoing := (acc.traffic_outgoing + val) % 2 ^ 64 }, [])
    else (acc, [])
  else if strncmp0 key "Threads_" then
    if key = "Threads_running" then ({ acc with threads_running := some val }, [])
    else if key = "Threads_connected" then ({ acc with threads_connected := some val }, [])
    else if key = "Threads_cached" then ({ acc with threads_cached := some val }, [])
    else if key = "Threads_created" then ({ acc with threads_created := toDerive val }, [])
    else (acc, [])
  else if strncmp0 key "Table_locks_" then
    (acc, [derive_submit "mysql_locks" (some (dropLen key 12)) (toDerive val)])
  else if innodb_stats && strncmp0 key "Innodb_" then
    (acc, innodbChain1 key val ++ innodbChain2 key val)
  else if strncmp0 key "Select_" then
    (acc, [derive_submit "mysql_select" (some (dropLen key 7)) (toDerive val)])
  else if strncmp0 key "Sort_" then
    if key = "Sort_merge_passes" then (acc, [derive_submit "mysql_sort_merge_passes" none (toDerive val)])
    else if key = "Sort_rows" then (acc, [derive_submit "mysql_sort_rows" none (toDerive val)])
    else if key = "Sort_range" then (acc, [derive_submit "mysql_sort" (some "range") (toDerive val)])
    else if key = "Sort_scan" then (acc, [derive_submit "mysql_sort" (some "scan") (toDerive val)])
    else (acc, [])
  else if strncmp0 key "Slow_queries" then
    (acc, [derive_submit "mysql_slow_queries" none (toDerive val)])
  else if key = "Uptime" then (acc, [gauge_submit "uptime" none (.g val)])
  else if key = "Questions" then (acc, [gauge_submit "questions" none (.g val)])
  else (acc, [])

/-- One row of the global-status loop: `val = atoll(row[1])`, then the
classification chain. -/
def processRow (innodb_stats : Bool) (acc : ReadAcc) (key v : String) :
    ReadAcc × List Emission :=
  processRowV innodb_stats acc key (rowVal v)

/-- The global-status while loop over all rows, threading the
accumulators and concatenating the emissions in order. -/
def processRows (innodb_stats : Bool) : ReadAcc → List (String × String) → ReadAcc × List Emission
  | acc, [] => (acc, [])
  | acc, (k, v) :: rest =>
    let p := processRow innodb_stats acc k v
    let q := processRows innodb_stats p.1 rest
    (q.1, p.2 ++ q.2)

/-- NAN-aware gauge value of an accumulator. -/
def gaugeOf (o : Option Nat) : EValue :=
  match o with
  | some v => .g v
  | none => .gNaN

/-- The qcache batch at the end of mysql_read: emitted only when one of
the four derive accumulators is non-zero; four cache_result derives
plus one cache_size gauge. -/
def qcacheEmissions (acc : ReadAcc) : List Emission :=
  if acc.qcache_hits ≠ 0 ∨ acc.qcache_inserts ≠ 0 ∨ acc.qcache_not_cached ≠ 0 ∨
      acc.qcache_lowmem_prunes ≠ 0 then
    [derive_submit "cache_result" (some "qcache-hits") acc.qcache_hits,
     derive_submit "cache_result" (some "qcache-inserts") acc.qcache_inserts,
     derive_submit "cache_result" (some "qcache-not_cached") acc.qcache_not_cached,
     derive_submit "cache_result" (some "qcache-prunes") acc.qcache_lowmem_prunes,
     gauge_submit "cache_size" (some "qcache") (gaugeOf acc.qcache_queries_in_cache)]
  else []

/-- The threads batch at the end of mysql_read: emitted only when
threads_created is non-zero. -/
def threadsEmissions (acc : ReadAcc) : List Emission :=
  if acc.threads_created ≠ 0 then
    [gauge_submit "threads" (some "running") (gaugeOf acc.threads_running),
     gauge_submit "threads" (some "connected") (gaugeOf acc.threads_connected),
     gauge_submit "threads" (some "cached") (gaugeOf acc.threads_cached),
     derive_submit "total_threads" (some "created") acc.threads_created]
  else []

/-- The unconditional traffic emission at the end of mysql_read. -/
def trafficEmissions (acc : ReadAcc) : List Emission :=
  [traffic_submit (toDerive acc.traffic_incoming) (toDerive acc.traffic_outgoing)]

/-- All emissions of the global-status phase of mysql_read: per-row
emissions in row order, then qcache batch, threads batch and traffic. -/
def globalStatusEmissions (innodb_stats : Bool) (rows : List (String × String)) :
    List Emission :=
  let p := processRows innodb_stats {} rows
  p.2 ++ qcacheEmissions p.1 ++ threadsEmissions p.1 ++ trafficEmissions p.1

/-- Version-gated choice of the global-status statement in mysql_read. -/
def globalStatusQuery (mysql_version : Nat) : String :=
  let query := "SHOW STATUS"
  if mysql_version ≥ 50002 then "SHOW GLOBAL STATUS" else query

/-- Notification severity (NOTIF_WARNING / NOTIF_OKAY). -/
inductive Severity
  | warning
  | okay
deriving DecidableEq, Repr

/-- One call to plugin_dispatch_notification. -/
structure Notification where
  severity : Severity
  message : String
deriving DecidableEq, Repr

/-- The per-instance replica health flags, both initialised to true at
configuration time so that an initial "not running" observation fires. -/
structure ReplicaFlags where
  io_running : Bool
  sql_running : Bool
deriving DecidableEq, Repr

/-- Whether an observed thread-state column reports "running":
non-NULL and equal to "yes" up to case (`strcasecmp(x, "yes") == 0`). -/
def observedRunning (o : Option String) : Bool :=
  match o with
  | none => false
  | some s => strcaseeq s "yes"

/-- The warning dispatched when the replica I/O thread stops. -/
def ioWarnNotif : Notification :=
  ⟨.warning, "replica I/O thread not started or not connected to primary"⟩

/-- The OK notification dispatched when the replica I/O thread starts. -/
def ioOkayNotif : Notification :=
  ⟨.okay, "replica I/O thread started and connected to primary"⟩

/-- The warning dispatched when the replica SQL thread stops. -/
def sqlWarnNotif : Notification :=
  ⟨.warning, "replica SQL thread not started"⟩

/-- The OK notification dispatched when the replica SQL thread starts. -/
def sqlOkayNotif : Notification :=
  ⟨.okay, "replica SQL thread started"⟩

/-- The I/O-thread if/else-if block of the notification section of
mysql_read_replica_stats: edge-triggered on the stored flag. -/
def ioStep (stored : Bool) (obs : Option String) : List Notification × Bool :=
  if !(observedRunning obs) && stored then ([ioWarnNotif], false)
  else if observedRunning obs && !stored then ([ioOkayNotif], true)
  else ([], stored)

/-- The SQL-thread if/else-if block of the notification section of
mysql_read_replica_stats. -/
def sqlStep (stored : Bool) (obs : Option String) : List Notification × Bool :=
  if !(observedRunning obs) && stored then ([sqlWarnNotif], false)
  else if observedRunning obs && !stored then ([sqlOkayNotif], true)
  else ([], stored)

/-- The whole notification section: the I/O block runs first, then the
SQL block; notifications are dispatched in that order. -/
def replicaNotifStep (flags : ReplicaFlags) (obs_io obs_sql : Option String) :
    List Notification × ReplicaFlags :=
  let i := ioStep flags.io_running obs_io
  let s := sqlStep flags.sql_running obs_sql
  (i.1 ++ s.1, ⟨i.2, s.2⟩)

/-- The buffered result of SHOW SLAVE STATUS: rows of possibly-NULL
columns, plus mysql_num_fields of the result. -/
structure ReplicaResult where
  rows : List (List (Option String))
  field_num : Nat
deriving DecidableEq, Repr

/-- mysql_read_replica_stats: `none` for the result models a failed
exec_query.  Returns (status, emissions, notifications, new flags);
on every error path nothing is emitted and the flags are unchanged.
Column indices: 6 = Read_Master_Log_Pos, 10 = Slave_IO_Running,
11 = Slave_SQL_Running, 21 = Exec_Master_Log_Pos,
32 = Seconds_Behind_Master. -/
def mysql_read_replica_stats (replica_stats replica_notif : Bool)
    (flags : ReplicaFlags) (res : Option ReplicaResult) :
    Int × List Emission × List Notification × ReplicaFlags :=
  match res with
  | none => (-1, [], [], flags)
  | some r =>
    match r.rows with
    | [] => (-1, [], [], flags)
    | row :: _ =>
      if r.field_num < 33 then (-1, [], [], flags)
      else
        let ems :=
          if replica_stats then
            [gauge_submit "bool" (some "slave-sql-running")
               (.g (if observedRunning (row.getD 11 none) then 1 else 0)),
             gauge_submit "bool" (some "slave-io-running")
               (.g (if observedRunning (row.getD 10 none) then 1 else 0)),
             derive_submit "mysql_log_position" (some "slave-read")
               (toDerive (optVal (row.getD 6 none))),
             derive_submit "mysql_log_position" (some "slave-exec")
               (toDerive (optVal (row.getD 21 none)))] ++
            (match row.getD 32 none with
             | some s => [gauge_submit "time_offset" none (.gRaw s)]
             | none => [])
          else []
        let ns :=
          if replica_notif then replicaNotifStep flags (row.getD 10 none) (row.getD 11 none)
          else ([], flags)
        (0, ems, ns.1, ns.2)

/-- The buffered result of SHOW MASTER STATUS. -/
structure PrimaryResult where
  rows : List (List (Option String))
  field_num : Nat
deriving DecidableEq, Repr

/-- mysql_read_primary_stats: on success one derive emission with the
binary-log position from column 1. -/
def mysql_read_primary_stats (res : Option PrimaryResult) : Int × List Emission :=
  match res with
  | none => (-1, [])
  | some r =>
    match r.rows with
    | [] => (-1, [])
    | row :: _ =>
      if r.field_num < 2 then (-1, [])
      else
        (0, [derive_submit "mysql_log_position" (some "master-bin")
               (toDerive (optVal (row.getD 1 none)))])

/-- Linear scan of a (key, type, ds_type) metrics table, as the
`for (i = 0; metrics[i].key != NULL && strcmp(...) != 0; i++)` loops. -/
def tableLookup : List (String × String × DSType) → String → Option (String × DSType)
  | [], _ => none
  | (k, t, d) :: rest, key => if k = key then some (t, d) else tableLookup rest key

/-- The metrics table of mysql_read_innodb_stats. -/
def innodbMetrics : List (String × String × DSType) :=
  [("metadata_mem_pool_size", "bytes", .GAUGE),
   ("lock_deadlocks", "mysql_locks", .DERIVE),
   ("lock_timeouts", "mysql_locks", .DERIVE),
   ("lock_row_lock_current_waits", "mysql_locks", .DERIVE),
   ("buffer_pool_size", "bytes", .GAUGE),
   ("os_log_bytes_written", "operations", .DERIVE),
   ("os_log_pending_fsyncs", "operations", .DERIVE),
   ("os_log_pending_writes", "operations", .DERIVE),
   ("trx_rseg_history_len", "gauge", .GAUGE),
   ("adaptive_hash_searches", "operations", .DERIVE),
   ("file_num_open_files", "gauge", .GAUGE),
   ("ibuf_merges_insert", "operations", .DERIVE),
   ("ibuf_merges_delete_mark", "operations", .DERIVE),
   ("ibuf_merges_delete", "operations", .DERIVE),
   ("ibuf_merges_discard_insert", "operations", .DERIVE),
   ("ibuf_merges_discard_delete_mark", "operations", .DERIVE),
   ("ibuf_merges_discard_delete", "operations", .DERIVE),
   ("ibuf_merges_discard_merges", "operations", .DERIVE),
   ("ibuf_size", "bytes", .GAUGE),
   ("innodb_activity_count", "gauge", .GAUGE),
   ("innodb_rwlock_s_spin_waits", "operations", .DERIVE),
   ("innodb_rwlock_x_spin_waits", "operations", .DERIVE),
   ("innodb_rwlock_s_spin_rounds", "operations", .DERIVE),
   ("innodb_rwlock_x_spin_rounds", "operations", .DERIVE),
   ("innodb_rwlock_s_os_waits", "operations", .DERIVE),
   ("innodb_rwlock_x_os_waits", "operations", .DERIVE),
   ("dml_reads", "operations", .DERIVE),
   ("dml_inserts", "operations", .DERIVE),
   ("dml_deletes", "operations", .DERIVE),
   ("dml_updates", "operations", .DERIVE)]

/-- The loop body shared by the innodb and wsrep readers, as a function
of the already-converted value: table lookup, unmatched keys dropped,
then the ds_type switch (the key itself is the type_instance). -/
def tableRowV (tbl : List (String × String × DSType)) (key : String) (val : Nat) :
    List Emission :=
  match tableLookup tbl key with
  | none => []
  | some (t, .COUNTER) => [derive_submit t (some key) (toDerive val)]
  | some (t, .GAUGE) => [gauge_submit t (some key) (.g val)]
  | some (t, .DERIVE) => [derive_submit t (some key) (toDerive val)]

/-- One row of the innodb metrics loop: `val = atoll(row[1])`, then the
table dispatch. -/
def innodbRow (r : String × String) : List Emission :=
  tableRowV innodbMetrics r.1 (rowVal r.2)

/-- mysql_read_innodb_stats: every fetched row is classified (there is
no initial emptiness check in this reader). -/
def mysql_read_innodb_stats (res : Option (List (String × String))) :
    Int × List Emission :=
  match res with
  | none => (-1, [])
  | some rows => (0, rows.flatMap innodbRow)

/-- The metrics table of mysql_read_wsrep_stats. -/
def wsrepMetrics : List (String × String × DSType) :=
  [("wsrep_apply_oooe", "operations", .DERIVE),
   ("wsrep_apply_oool", "operations", .DERIVE),
   ("wsrep_causal_reads", "operations", .DERIVE),
   ("wsrep_commit_oooe", "operations", .DERIVE),
   ("wsrep_commit_oool", "operations", .DERIVE),
   ("wsrep_flow_control_recv", "operations", .DERIVE),
   ("wsrep_flow_control_sent", "operations", .DERIVE),
   ("wsrep_flow_control_paused", "operations", .DERIVE),
   ("wsrep_local_bf_aborts", "operations", .DERIVE),
   ("wsrep_local_cert_failures", "operations", .DERIVE),
   ("wsrep_local_commits", "operations", .DERIVE),
   ("wsrep_local_replays", "operations", .DERIVE),
   ("wsrep_received", "operations", .DERIVE),
   ("wsrep_replicated", "operations", .DERIVE),
   ("wsrep_received_bytes", "total_bytes", .DERIVE),
   ("wsrep_replicated_bytes", "total_bytes", .DERIVE),
   ("wsrep_apply_window", "gauge", .GAUGE),
   ("wsrep_commit_window", "gauge", .GAUGE),
   ("wsrep_cluster_size", "gauge", .GAUGE),
   ("wsrep_cert_deps_distance", "gauge", .GAUGE),
   ("wsrep_local_recv_queue", "queue_length", .GAUGE),
   ("wsrep_local_send_queue", "queue_length", .GAUGE)]

/-- One row of the wsrep loop. -/
def wsrepRow (r : String × String) : List Emission :=
  tableRowV wsrepMetrics r.1 (rowVal r.2)

/-- mysql_read_wsrep_stats: the reader first calls mysql_fetch_row once
and errors when that returns NULL ("did not return any rows"); the
while loop then iterates over the REMAINING rows, so the row consumed
by the emptiness check is never classified. -/
def mysql_read_wsrep_stats (res : Option (List (String × String))) :
    Int × List Emission :=
  match res with
  | none => (-1, [])
  | some [] => (-1, [])
  | some (_ :: rest) => (0, rest.flatMap wsrepRow)

/-- The connection-related fields of mysql_database_t: the cached
handle (the MYSQL object itself carries no state the claims need, so it
is a unit marker), the is_connected flag and the recorded server
version. -/
structure ConnState where
  con : Option Unit
  is_connected : Bool
  mysql_version : Nat
deriving DecidableEq, Repr

/-- The environment of one getconnection call: whether mysql_ping
succeeds on the cached handle, whether mysql_init succeeds, whether
mysql_real_connect succeeds, and the server version reported on
success. -/
structure ConnEnv where
  ping_ok : Bool
  init_ok : Bool
  connect_ok : Bool
  server_version : Nat
deriving DecidableEq, Repr

/-- getconnection: ping the cached handle when marked connected and
return it on success; otherwise mark disconnected, close and null the
old handle, mysql_init a fresh one (NULL on init failure), attempt
mysql_real_connect (on failure return NULL with the fresh handle still
stored), and on success record the server version and mark connected. -/
def getconnection (env : ConnEnv) (db : ConnState) : Option Unit × ConnState :=
  if db.is_connected && env.ping_ok then (db.con, db)
  else
    let db1 : ConnState := { db with is_connected := false, con := none }
    if !env.init_ok then (none, db1)
    else
      let db2 : ConnState := { db1 with con := some () }
      if !env.connect_ok then (none, db2)
      else
        let db3 : ConnState :=
          { db2 with mysql_version := env.server_version, is_connected := true }
        (some (), db3)

/-- set_host: the alias when configured, else the global hostname when
the configured host is NULL, empty, "127.0.0.1" or "localhost", else
the configured host. -/
def set_host (dbAlias host : Option String) (hostname_g : String) : String :=
  match dbAlias with
  | some a => a
  | none =>
    match host with
    | none => hostname_g
    | some h =>
      if h = "" ∨ h = "127.0.0.1" ∨ h = "localhost" then hostname_g else h

/-- The configuration flags of one instance that drive a poll cycle. -/
structure DBConfig where
  innodb_stats : Bool
  primary_stats : Bool
  replica_stats : Bool
  replica_notif : Bool
  wsrep_stats : Bool
  mysql_version : Nat
deriving DecidableEq, Repr

/-- The external outcomes one poll cycle can observe: whether
getconnection succeeded, and the result (or exec_query failure, `none`)
of each of the five queries. -/
structure CycleInput where
  con_ok : Bool
  global_res : Option (List (String × String))
  innodb_res : Option (List (String × String))
  primary_res : Option PrimaryResult
  replica_res : Option ReplicaResult
  wsrep_res : Option (List (String × String))
deriving DecidableEq, Repr

/-- mysql_read: abort on connection or global-status failure; classify
all global-status rows and emit the batches; then run each optional
sub-reader gated only by its configuration flags (and, for InnoDB, the
version gate), ignoring each sub-reader's return status; return 0. -/
def mysql_read (db : DBConfig) (flags : ReplicaFlags) (inp : CycleInput) :
    Int × List Emission × List Notification × ReplicaFlags :=
  if !inp.con_ok then (-1, [], [], flags)
  else
    match inp.global_res with
    | none => (-1, [], [], flags)
    | some rows =>
      let g := globalStatusEmissions db.innodb_stats rows
      let innodbE :=
        if db.mysql_version ≥ 50600 && db.innodb_stats then
          (mysql_read_innodb_stats inp.innodb_res).2
        else []
      let primE :=
        if db.primary_stats then (mysql_read_primary_stats inp.primary_res).2
        else []
      let repl :=
        if db.replica_stats || db.replica_notif then
          let r := mysql_read_replica_stats db.replica_stats db.replica_notif flags
            inp.replica_res
          (r.2.1, r.2.2.1, r.2.2.2)
        else ([], [], flags)
      let wsrepE :=
        if db.wsrep_stats then (mysql_read_wsrep_stats inp.wsrep_res).2
        else []
      (0, g ++ innodbE ++ primE ++ repl.1 ++ wsrepE, repl.2.1, repl.2.2)

/-- The InnoDB segment of one cycle's emissions, depending only on the
InnoDB sub-result. -/
def innodbPart (db : DBConfig) (inp : CycleInput) : List Emission :=
  if db.mysql_version ≥ 50600 && db.innodb_stats then
    (mysql_read_innodb_stats inp.innodb_res).2
  else []

/-- The primary-role segment of one cycle's emissions, depending only
on the primary sub-result. -/
def primaryPart (db : DBConfig) (inp : CycleInput) : List Emission :=
  if db.primary_stats then (mysql_read_primary_stats inp.primary_res).2 else []

/-- The replica-role segment of one cycle (emissions, notifications and
resulting flags), depending only on the replica sub-result. -/
def replicaPart (db : DBConfig) (flags : ReplicaFlags) (inp : CycleInput) :
    List Emission × List Notification × ReplicaFlags :=
  if db.replica_stats || db.replica_notif then
    let r := mysql_read_replica_stats db.replica_stats db.replica_notif flags
      inp.replica_res
    (r.2.1, r.2.2.1, r.2.2.2)
  else ([], [], flags)

/-- The cluster (wsrep) segment of one cycle's emissions, depending
only on the wsrep sub-result. -/
def wsrepPart (db : DBConfig) (inp : CycleInput) : List Emission :=
  if db.wsrep_stats then (mysql_read_wsrep_stats inp.wsrep_res).2 else []

/-! Helper lemmas shared by the claim theorems. -/

lemma strPre_trans : ∀ {p q s : List Char},
    strPre p q = true → strPre q s = true → strPre p s = true := by
  intro p
  induction p with
  | nil => intro q s _ _; rfl
  | cons a as ih =>
    intro q s h1 h2
    cases q with
    | nil => simp [strPre] at h1
    | cons b bs =>
      cases s with
      | nil => simp [strPre] at h2
      | cons c cs =>
        simp only [strPre] at h1 h2 ⊢
        by_cases hab : a = b
        · rw [if_pos hab] at h1
          by_cases hbc : b = c
          · rw [if_pos hbc] at h2
            rw [if_pos (hab.trans hbc)]
            exact ih h1 h2
          · rw [if_neg hbc] at h2
            exact absurd h2 (by simp)
        · rw [if_neg hab] at h1
          exact absurd h1 (by simp)

lemma com_of_comstmt (key : String) (h : strncmp0 key "Com_stmt_" = true) :
    strncmp0 key "Com_" = true :=
  strPre_trans (q := "Com_stmt_".data) (by decide) h

lemma digitsAcc_zero_of_head (cs : List Char) (h : (cs.headD ' ').isDigit = false) :
    digitsAcc 0 cs = 0 := by
  cases cs with
  | nil => rfl
  | cons c cs' =>
    simp only [List.headD] at h
    simp [digitsAcc, h]

lemma c_atoll_eq_zero (s : String) (h : atollParses s = false) : c_atoll s = 0 := by
  unfold c_atoll atollList
  unfold atollParses at h
  cases hcs : s.data.dropWhile isSpace with
  | nil => simp
  | cons c cs' =>
    rw [hcs] at h
    simp only []
    by_cases hneg : c = '-'
    · simp only [if_pos hneg] at h ⊢
      rw [digitsAcc_zero_of_head cs' h]
      rfl
    · by_cases hpos : c = '+'
      · simp only [if_neg hneg, if_pos hpos] at h ⊢
        exact digitsAcc_zero_of_head cs' h
      · simp only [if_neg hneg, if_neg hpos] at h ⊢
        exact digitsAcc_zero_of_head (c :: cs') (by simpa [List.headD] using h)

lemma ioStep_replay (b : Bool) (obs : Option String) :
    (ioStep (ioStep b obs).2 obs).1 = [] := by
  cases b <;> cases hob : observedRunning obs <;> simp [ioStep, hob]

lemma sqlStep_replay (b : Bool) (obs : Option String) :
    (sqlStep (sqlStep b obs).2 obs).1 = [] := by
  cases b <;> cases hob : observedRunning obs <;> simp [sqlStep, hob]

/-- C4: at the end of classifying one global-status result, the qcache
batch is emitted iff at least one of the four accumulators hits,
inserts, not_cached, lowmem_prunes is non-zero; when it is emitted it
consists of exactly five emissions, four derives followed by one gauge,
even if some individual accumulators are zero; and the global-status
phase appends exactly this batch after the per-row emissions. -/
theorem claim_C4 (acc : ReadAcc) :
    (qcacheEmissions acc = [] ↔
      ¬(acc.qcache_hits ≠ 0 ∨ acc.qcache_inserts ≠ 0 ∨ acc.qcache_not_cached ≠ 0 ∨
        acc.qcache_lowmem_prunes ≠ 0)) ∧
    ((acc.qcache_hits ≠ 0 ∨ acc.qcache_inserts ≠ 0 ∨ acc.qcache_not_cached ≠ 0 ∨
        acc.qcache_lowmem_prunes ≠ 0) →
      (qcacheEmissions acc).length = 5 ∧
      (qcacheEmissions acc).map Emission.kind =
        [.derive, .derive, .derive, .derive, .gauge]) ∧
    (∀ inn rows, globalStatusEmissions inn rows =
      (processRows inn {} rows).2 ++ qcacheEmissions (processRows inn {} rows).1 ++
        threadsEmissions (processRows inn {} rows).1 ++
        trafficEmissions (processRows inn {} rows).1) := by
  refine ⟨?_, ?_, fun inn rows => rfl⟩
  · by_cases hc : acc.qcache_hits ≠ 0 ∨ acc.qcache_inserts ≠ 0 ∨
        acc.qcache_not_cached ≠ 0 ∨ acc.qcache_lowmem_prunes ≠ 0
    · simp [qcacheEmissions, hc]
    · simp [qcacheEmissions, hc]
  · intro hc
    cases hq : acc.qcache_queries_in_cache <;>
      simp [qcacheEmissions, hc, hq, Emission.kind, derive_submit, gauge_submit, gaugeOf]

/-- Witness for C4 at a concrete accumulator state: only hits is
non-zero, queries-in-cache still NAN, yet five emissions of kinds
derive, derive, derive, derive, gauge are produced. -/
theorem claim_C4_witness :
    (qcacheEmissions { qcache_hits := 7 }).length = 5 ∧
    (qcacheEmissions { qcache_hits := 7 }).map Emission.kind =
      [.derive, .derive, .derive, .derive, .gauge] :=
  (claim_C4 { qcache_hits := 7 }).2.1 (by decide)

/-- C5: a global-status key beginning with Com_stmt_ never produces an
emission regardless of value; any other key beginning with Com_ whose
converted value is non-zero produces exactly one derive emission on the
mysql_commands series whose sub-label is the key's suffix after Com_;
and a Com_ key with value zero produces no emission. -/
theorem claim_C5 (inn : Bool) (acc : ReadAcc) (key v : String) :
    (strncmp0 key "Com_stmt_" = true → (processRow inn acc key v).2 = []) ∧
    (strncmp0 key "Com_" = true → rowVal v = 0 → (processRow inn acc key v).2 = []) ∧
    (strncmp0 key "Com_" = true → strncmp0 key "Com_stmt_" = false → rowVal v ≠ 0 →
      (processRow inn acc key v).2 =
        [derive_submit "mysql_commands" (some (dropLen key 4)) (toDerive (rowVal v))]) := by
  refine ⟨?_, ?_, ?_⟩
  · intro h
    have hcom : strncmp0 key "Com_" = true := com_of_comstmt key h
    by_cases hv : rowVal v = 0 <;> simp [processRow, processRowV, hcom, h, hv]
  · intro hcom hv
    simp [processRow, processRowV, hcom, hv]
  · intro hcom hstmt hv
    simp [processRow, processRowV, hcom, hstmt, hv]

/-- Witness for C5 at concrete keys: Com_stmt_execute is suppressed even
with a non-zero value, Com_select with value 5 yields exactly the one
commands emission labelled "select", and Com_select with value 0 yields
nothing. -/
theorem claim_C5_witness :
    (processRow false {} "Com_stmt_execute" "5").2 = [] ∧
    (processRow false {} "Com_select" "0").2 = [] ∧
    (processRow false {} "Com_select" "5").2 =
      [derive_submit "mysql_commands" (some (dropLen "Com_select" 4))
        (toDerive (rowVal "5"))] :=
  ⟨(claim_C5 false {} "Com_stmt_execute" "5").1 (by decide),
   (claim_C5 false {} "Com_select" "0").2.1 (by decide) (by decide),
   (claim_C5 false {} "Com_select" "5").2.2 (by decide) (by decide) (by decide)⟩

/-- C6: the global-status statement is selected from the server version
recorded at connection time: strictly below 50002 the legacy
"SHOW STATUS", at or above 50002 the modern "SHOW GLOBAL STATUS", and
the boundary version 50002 itself selects the modern statement. -/
theorem claim_C6 (v : Nat) :
    (v < 50002 → globalStatusQuery v = "SHOW STATUS") ∧
    (50002 ≤ v → globalStatusQuery v = "SHOW GLOBAL STATUS") ∧
    globalStatusQuery 50002 = "SHOW GLOBAL STATUS" := by
  refine ⟨?_, ?_, rfl⟩
  · intro h
    simp [globalStatusQuery, Nat.not_le.mpr h]
  · intro h
    simp [globalStatusQuery, h]

/-- Witness for C6 at the boundary and one version on each side. -/
theorem claim_C6_witness :
    globalStatusQuery 50001 = "SHOW STATUS" ∧
    globalStatusQuery 50002 = "SHOW GLOBAL STATUS" ∧
    globalStatusQuery 100500 = "SHOW GLOBAL STATUS" :=
  ⟨(claim_C6 50001).1 (by decide), (claim_C6 50002).2.1 (by decide),
   (claim_C6 100500).2.1 (by decide)⟩

/-- C7: the host label is the alias when one is configured; otherwise
the process-wide default host identity when the configured host is
unset, empty, the loopback address 127.0.0.1 or localhost; otherwise
the configured host string.  In particular an empty host with no alias
resolves to the default host identity, never the empty string. -/
theorem claim_C7 (dbAlias host : Option String) (g : String) :
    (∀ a, dbAlias = some a → set_host dbAlias host g = a) ∧
    (dbAlias = none →
      (host = none ∨ host = some "" ∨ host = some "127.0.0.1" ∨ host = some "localhost") →
      set_host dbAlias host g = g) ∧
    (∀ h, dbAlias = none → host = some h → h ≠ "" → h ≠ "127.0.0.1" → h ≠ "localhost" →
      set_host dbAlias host g = h) ∧
    set_host none (some "") g = g := by
  refine ⟨?_, ?_, ?_, rfl⟩
  · intro a ha
    subst ha
    rfl
  · intro ha hh
    subst ha
    rcases hh with h | h | h | h <;> subst h <;> simp [set_host]
  · intro h ha hh h1 h2 h3
    subst ha
    subst hh
    simp [set_host, h1, h2, h3]

/-- Witness for C7: alias wins, empty host falls back to the default
identity, and a real remote host is kept. -/
theorem claim_C7_witness :
    set_host (some "db-alias") (some "10.0.0.9") "monitor" = "db-alias" ∧
    set_host none (some "") "monitor" = "monitor" ∧
    set_host none (some "127.0.0.1") "monitor" = "monitor" ∧
    set_host none (some "10.0.0.9") "monitor" = "10.0.0.9" :=
  ⟨(claim_C7 (some "db-alias") (some "10.0.0.9") "monitor").1 "db-alias" rfl,
   (claim_C7 none (some "") "monitor").2.1 rfl (by simp),
   (claim_C7 none (some "127.0.0.1") "monitor").2.1 rfl (by simp),
   (claim_C7 none (some "10.0.0.9") "monitor").2.2.1 "10.0.0.9" rfl rfl
     (by decide) (by decide) (by decide)⟩

/-- C9: a raw value string in which atoll finds no digits is converted
to zero, and classification of such a row — in the global-status loop,
the InnoDB metrics loop and the wsrep loop alike — is identical to
classifying the same key with the value "0"; the classifiers are total,
so no error is raised for a malformed value. -/
theorem claim_C9 (s : String) (h : atollParses s = false) :
    c_atoll s = 0 ∧ rowVal s = 0 ∧
    (∀ inn acc key, processRow inn acc key s = processRow inn acc key "0") ∧
    (∀ key, innodbRow (key, s) = innodbRow (key, "0")) ∧
    (∀ key, wsrepRow (key, s) = wsrepRow (key, "0")) := by
  have h0 : c_atoll s = 0 := c_atoll_eq_zero s h
  have hr : rowVal s = 0 := by
    unfold rowVal
    rw [h0]
    rfl
  have hr0 : rowVal "0" = 0 := by decide
  refine ⟨h0, hr, ?_, ?_, ?_⟩
  · intro inn acc key
    unfold processRow
    rw [hr, hr0]
  · intro key
    unfold innodbRow
    rw [hr, hr0]
  · intro key
    unfold wsrepRow
    rw [hr, hr0]

/-- Witness for C9 at the malformed value "garbage": it converts to 0
and classifies exactly like "0". -/
theorem claim_C9_witness :
    c_atoll "garbage" = 0 ∧ rowVal "garbage" = 0 ∧
    processRow false {} "Com_select" "garbage" = processRow false {} "Com_select" "0" ∧
    innodbRow ("dml_reads", "garbage") = innodbRow ("dml_reads", "0") ∧
    wsrepRow ("wsrep_received", "garbage") = wsrepRow ("wsrep_received", "0") :=
  let h := claim_C9 "garbage" (by decide)
  ⟨h.1, h.2.1, h.2.2.1 false {} "Com_select", h.2.2.2.1 "dml_reads",
   h.2.2.2.2 "wsrep_received"⟩

/-- C10: when the replica-status query returns no rows at all, or a
result with fewer than 33 columns, the replica reader returns the error
status -1 with no emission and no notification and leaves both stored
replica health flags unchanged. -/
theorem claim_C10 (rs rn : Bool) (flags : ReplicaFlags) (r : ReplicaResult)
    (h : r.rows = [] ∨ r.field_num < 33) :
    mysql_read_replica_stats rs rn flags (some r) = (-1, [], [], flags) := by
  rcases h with h | h
  · simp [mysql_read_replica_stats, h]
  · cases hr : r.rows with
    | nil => simp [mysql_read_replica_stats, hr]
    | cons row rest => simp [mysql_read_replica_stats, hr, h]

/-- Witness for C10 on an empty result and on a 5-column result, with
both collection flags enabled and flags (true, true). -/
theorem claim_C10_witness :
    mysql_read_replica_stats true true ⟨true, true⟩ (some ⟨[], 40⟩) =
      (-1, [], [], ⟨true, true⟩) ∧
    mysql_read_replica_stats true true ⟨true, true⟩
        (some ⟨[[some "a", some "b"]], 5⟩) =
      (-1, [], [], ⟨true, true⟩) :=
  ⟨claim_C10 true true ⟨true, true⟩ ⟨[], 40⟩ (Or.inl rfl),
   claim_C10 true true ⟨true, true⟩ ⟨[[some "a", some "b"]], 5⟩ (Or.inr (by decide))⟩

/-- C1: for each replica flag independently, an observed "not running"
against a stored true flag emits exactly one warning and stores false;
an observed "running" (the string yes, case-insensitive) against a
stored false flag emits exactly one OK notification and stores true; a
matching observation emits nothing and leaves the flag unchanged;
replaying any observation a second time emits nothing; and from the
initial state (true, true) the spec's scenario holds: one warning for
the first "not running" I/O observation, zero on replay, one OK when it
comes back. -/
theorem claim_C1 (b : Bool) (obs : Option String) :
    (observedRunning obs = false → b = true →
      ioStep b obs = ([ioWarnNotif], false) ∧ sqlStep b obs = ([sqlWarnNotif], false)) ∧
    (observedRunning obs = true → b = false →
      ioStep b obs = ([ioOkayNotif], true) ∧ sqlStep b obs = ([sqlOkayNotif], true)) ∧
    (observedRunning obs = b → ioStep b obs = ([], b) ∧ sqlStep b obs = ([], b)) ∧
    (∀ (st : ReplicaFlags) (o1 o2 : Option String),
      (replicaNotifStep (replicaNotifStep st o1 o2).2 o1 o2).1 = []) ∧
    replicaNotifStep ⟨true, true⟩ (some "No") (some "Yes") = ([ioWarnNotif], ⟨false, true⟩) ∧
    replicaNotifStep ⟨false, true⟩ (some "No") (some "Yes") = ([], ⟨false, true⟩) ∧
    replicaNotifStep ⟨false, true⟩ (some "Yes") (some "Yes") =
      ([ioOkayNotif], ⟨true, true⟩) := by
  refine ⟨?_, ?_, ?_, ?_, by decide, by decide, by decide⟩
  · intro hob hb
    subst hb
    simp [ioStep, sqlStep, hob]
  · intro hob hb
    subst hb
    simp [ioStep, sqlStep, hob]
  · intro hob
    cases b <;> simp_all [ioStep, sqlStep]
  · intro st o1 o2
    simp [replicaNotifStep, ioStep_replay, sqlStep_replay]

/-- Witness for C1 at concrete observations: the stop edge from a
stored true flag, the start edge from a stored false flag, and the
steady state. -/
theorem claim_C1_witness :
    (ioStep true (some "No") = ([ioWarnNotif], false) ∧
      sqlStep true (some "No") = ([sqlWarnNotif], false)) ∧
    (ioStep false (some "YES") = ([ioOkayNotif], true) ∧
      sqlStep false (some "YES") = ([sqlOkayNotif], true)) ∧
    (ioStep true (some "Yes") = ([], true) ∧ sqlStep true (some "Yes") = ([], true)) :=
  ⟨(claim_C1 true (some "No")).1 (by decide) rfl,
   (claim_C1 false (some "YES")).2.1 (by decide) rfl,
   (claim_C1 true (some "Yes")).2.2.1 (by decide)⟩

/-- C2: the wsrep reader consumes the first fetched row in its
emptiness check and classifies only the remaining rows, so a one-row
result whose key is an exact match of the cluster lookup table (here
wsrep_cluster_size, a gauge in the table) produces zero emissions,
while the same matching row anywhere after the first position produces
exactly one emission with the table's series name and kind. -/
theorem claim_C2 :
    tableLookup wsrepMetrics "wsrep_cluster_size" = some ("gauge", .GAUGE) ∧
    mysql_read_wsrep_stats (some [("wsrep_cluster_size", "3")]) = (0, []) ∧
    mysql_read_wsrep_stats (some [("wsrep_apply_oooe", "1"), ("wsrep_cluster_size", "3")]) =
      (0, [gauge_submit "gauge" (some "wsrep_cluster_size") (.g 3)]) ∧
    tableLookup wsrepMetrics "wsrep_unknown_key" = none ∧
    mysql_read_wsrep_stats
        (some [("wsrep_apply_oooe", "1"), ("wsrep_unknown_key", "9")]) = (0, []) := by
  decide

/-- C3 counterexample: with mysql_init succeeding and the network/auth
handshake failing, getconnection returns the error result (no handle),
but the stored connection handle is NOT unset — the freshly initialised
handle is still stored. -/
theorem claim_C3_cex :
    (getconnection ⟨true, true, false, 55000⟩ ⟨none, false, 0⟩).1 = none ∧
    (getconnection ⟨true, true, false, 55000⟩ ⟨none, false, 0⟩).2.con ≠ none := by
  decide

/-- C3 as amended: when a reconnect is attempted (no live pinged
connection) and the handshake fails, acquire returns the connection
error and leaves the instance marked disconnected — the freshly
initialised handle object remains stored rather than being unset — and
because the instance is marked disconnected, the next cycle's acquire
behaves exactly as if no handle were stored: it retries the connection
from scratch. -/
theorem claim_C3_amended (env : ConnEnv) (db : ConnState)
    (hping : (db.is_connected && env.ping_ok) = false)
    (hinit : env.init_ok = true) (hconn : env.connect_ok = false) :
    (getconnection env db).1 = none ∧
    (getconnection env db).2.is_connected = false ∧
    (getconnection env db).2.con = some () ∧
    (∀ env2 : ConnEnv, getconnection env2 (getconnection env db).2 =
      getconnection env2 { (getconnection env db).2 with con := none }) := by
  have hstep : getconnection env db =
      (none, { db with is_connected := false, con := some () }) := by
    simp [getconnection, hping, hinit, hconn]
  refine ⟨by rw [hstep], by rw [hstep], by rw [hstep], ?_⟩
  intro env2
  rw [hstep]
  simp [getconnection]

/-- Witness for C3's amended claim at a concrete failing handshake. -/
theorem claim_C3_witness :
    (getconnection ⟨true, true, false, 55000⟩ ⟨none, false, 0⟩).1 = none ∧
    (getconnection ⟨true, true, false, 55000⟩ ⟨none, false, 0⟩).2.is_connected = false ∧
    (getconnection ⟨true, true, false, 55000⟩ ⟨none, false, 0⟩).2.con = some () :=
  let h := claim_C3_amended ⟨true, true, false, 55000⟩ ⟨none, false, 0⟩ rfl rfl rfl
  ⟨h.1, h.2.1, h.2.2.1⟩

/-- C8: once the connection and the global-status query of a cycle
succeed, the cycle's result decomposes into the global-status emissions
followed by the four sub-query segments, each segment a function of its
own sub-result only; the cycle returns 0; and when the InnoDB sub-query
fails (its reader returns -1), only the InnoDB segment becomes empty
while the primary-role, replica-role and cluster segments — and the
notifications and resulting flags — are unchanged. -/
theorem claim_C8 (db : DBConfig) (flags : ReplicaFlags) (inp : CycleInput)
    (rows : List (String × String))
    (hcon : inp.con_ok = true) (hglob : inp.global_res = some rows) :
    mysql_read db flags inp =
      (0, globalStatusEmissions db.innodb_stats rows ++ innodbPart db inp ++
          primaryPart db inp ++ (replicaPart db flags inp).1 ++ wsrepPart db inp,
        (replicaPart db flags inp).2.1, (replicaPart db flags inp).2.2) ∧
    (mysql_read_innodb_stats none).1 = -1 ∧
    (mysql_read db flags { inp with innodb_res := none }).1 = 0 ∧
    innodbPart db { inp with innodb_res := none } = [] ∧
    primaryPart db { inp with innodb_res := none } = primaryPart db inp ∧
    replicaPart db flags { inp with innodb_res := none } = replicaPart db flags inp ∧
    wsrepPart db { inp with innodb_res := none } = wsrepPart db inp := by
  refine ⟨?_, rfl, ?_, ?_, rfl, rfl, rfl⟩
  · simp [mysql_read, hcon, hglob, innodbPart, primaryPart, replicaPart, wsrepPart]
  · simp [mysql_read, hcon, hglob]
  · simp [innodbPart, mysql_read_innodb_stats]

/-- Witness for C8 at a concrete cycle: all five collections enabled,
every optional sub-query with data, then the same cycle with the InnoDB
sub-query failing; the cycle still returns 0 and the other segments are
unchanged. -/
theorem claim_C8_witness :
    (mysql_read ⟨true, true, true, true, true, 60000⟩ ⟨true, true⟩
        { con_ok := true, global_res := some [("Uptime", "5")],
          innodb_res := none,
          primary_res := some ⟨[[some "binlog.01", some "123"]], 2⟩,
          replica_res := some ⟨[List.replicate 33 (some "Yes")], 33⟩,
          wsrep_res := some [("wsrep_apply_oooe", "1"), ("wsrep_cluster_size", "3")] }).1 =
      0 ∧
    innodbPart ⟨true, true, true, true, true, 60000⟩
        { con_ok := true, global_res := some [("Uptime", "5")],
          innodb_res := none,
          primary_res := some ⟨[[some "binlog.01", some "123"]], 2⟩,
          replica_res := some ⟨[List.replicate 33 (some "Yes")], 33⟩,
          wsrep_res := some [("wsrep_apply_oooe", "1"), ("wsrep_cluster_size", "3")] } =
      [] :=
  let h := claim_C8 ⟨true, true, true, true, true, 60000⟩ ⟨true, true⟩
    { con_ok := true, global_res := some [("Uptime", "5")],
      innodb_res := none,
      primary_res := some ⟨[[some "binlog.01", some "123"]], 2⟩,
      replica_res := some ⟨[List.replicate 33 (some "Yes")], 33⟩,
      wsrep_res := some [("wsrep_apply_oooe", "1"), ("wsrep_cluster_size", "3")] }
    [("Uptime", "5")] rfl rfl
  ⟨h.2.2.1, h.2.2.2.1⟩

end Mysql
